/-
Verification of the token-management core of a WeChat subscription façade
service.  The Go source is embedded shallowly: durations are modelled as
integers counting nanoseconds (Go's `time.Duration` is an `int64` of
nanoseconds), fallible calls return `Except`/`Option`, and the stateful
pieces (singleflight coalescing, the circuit breaker, the Redis cache) are
modelled as explicit state passing or small-step event traces.
-/
import Mathlib

namespace Cache

/-- One second in nanoseconds (`time.Second`). -/
def second : Int := 1000000000

/-- One minute in nanoseconds (`time.Minute`). -/
def minute : Int := 60 * second

/-- `SafetyMargin = 5 * time.Minute` from `cache.go`. -/
def SafetyMargin : Int := 5 * minute

/-- Reduction of a value into the `int64` range `[-2^63, 2^63)`, as Go's
wrapping two's-complement arithmetic produces it. -/
def wrap64 (x : Int) : Int := (x + 2 ^ 63) % 2 ^ 64 - 2 ^ 63

/-- Embedding of `CalculateTTL` from `internal/repository/cache/cache.go`:

    ttl := time.Duration(expiresIn)*time.Second - SafetyMargin
    if ttl < 0 { ttl = time.Duration(expiresIn) * time.Second / 2 }
    return ttl

All arithmetic is on `time.Duration`, an `int64` of nanoseconds, so the
multiplication and the subtraction wrap (`wrap64`); `expiresIn` is itself
an `int64` value.  Dividing an `int64` by 2 cannot overflow; Go's division
truncates toward zero, which is `Int.tdiv`. -/
def CalculateTTL (expiresIn : Int) : Int :=
  let ttl := wrap64 (wrap64 (expiresIn * second) - SafetyMargin)
  if ttl < 0 then Int.tdiv (wrap64 (expiresIn * second)) 2 else ttl

/-- `FormatComponentTokenKey` from `cache.go`. -/
def FormatComponentTokenKey (componentAppID : String) : String :=
  "wechat:token:component:" ++ componentAppID

/-- `FormatAuthorizerTokenKey` from `cache.go`. -/
def FormatAuthorizerTokenKey (authorizerAppID : String) : String :=
  "wechat:token:authorizer:" ++ authorizerAppID

end Cache

namespace Client

/-- `InitialBackoff = 100 * time.Millisecond` from `client.go`, in nanoseconds. -/
def InitialBackoff : Int := 100 * 1000000

/-- `MaxBackoff = 5 * time.Second` from `client.go`, in nanoseconds. -/
def MaxBackoff : Int := 5 * 1000000000

/-- The backoff update from `doRequestWithRetry`:
`backoff = Duration(float64(backoff) * 2.0); if backoff > MaxBackoff { backoff = MaxBackoff }`.
The float multiplication is exact for every value the loop produces
(all are far below 2^53), so it is embedded as integer doubling. -/
def nextBackoff (b : Int) : Int :=
  if 2 * b > MaxBackoff then MaxBackoff else 2 * b

/-- Outcome of the retry loop: the returned error (`none` = success), the
number of attempts performed, and the list of backoff sleeps in order. -/
structure RetryOutcome where
  result : Option String
  attempts : Nat
  waits : List Int
  deriving Repr, DecidableEq

/-- Recursive embedding of the loop body of `doRequestWithRetry` from
`client.go`.  `res i` is the outcome of the i-th `doRequest` attempt
(`none` = success, `some e` = failure with message `e`); `fuel` is the
number of loop iterations still allowed (`maxRetries + 1 - attempt`);
`lastErr` mirrors the Go variable of the same name. -/
def retryGo (res : Nat → Option String) :
    Nat → Nat → Int → Option String → RetryOutcome
  | 0, attempt, _, lastErr =>
      { result := some ("all retries exhausted: " ++ lastErr.getD ""),
        attempts := attempt, waits := [] }
  | fuel + 1, attempt, backoff, lastErr =>
      let w : List Int := if attempt > 0 then [backoff] else []
      let backoff' := if attempt > 0 then nextBackoff backoff else backoff
      match res attempt with
      | none =>
          { result := none, attempts := attempt + 1, waits := w }
      | some e =>
          let rest := retryGo res fuel (attempt + 1) backoff' (some e)
          { result := rest.result, attempts := rest.attempts,
            waits := w ++ rest.waits }

/-- Embedding of `doRequestWithRetry`: `for attempt := 0; attempt <= maxRetries; attempt++`. -/
def doRequestWithRetry (maxRetries : Nat) (res : Nat → Option String) : RetryOutcome :=
  retryGo res (maxRetries + 1) 0 InitialBackoff none

/-- Closed form of the backoff sequence: the wait before the (i+1)-st retry. -/
def expBackoff (i : Nat) : Int :=
  min (100000000 * 2 ^ i) 5000000000

end Client

namespace Service

/-- Go's `strings.Contains(s, sub)`: `sub` occurs contiguously in `s`. -/
def strContains (s sub : String) : Bool := decide (sub.data <:+: s.data)

/-- The error message produced by `client.go` for a non-zero upstream
errcode: `fmt.Errorf("wechat api error: code=%d, msg=%s", errcode, errmsg)`. -/
def wechatAPIError (errcode : Int) (errmsg : String) : String :=
  "wechat api error: code=" ++ toString errcode ++ ", msg=" ++ errmsg

/-- Embedding of `isTokenExpiredError` from `article_service.go`; `none`
models a `nil` error, `some m` an error whose `Error()` string is `m`:

    errMsg := err.Error()
    return strings.Contains(errMsg, "code=40001") ||
        strings.Contains(errMsg, "code=42001") -/
def isTokenExpiredError : Option String → Bool
  | none => false
  | some errMsg => strContains errMsg "code=40001" || strContains errMsg "code=42001"

/-- Outcome of one article-pipeline request: the returned value or error
string, and how many article-endpoint calls and invalidate-and-refresh
calls were made during the request. -/
structure ArticleOutcome (α : Type) where
  result : Except String α
  articleCalls : Nat
  invalidateCalls : Nat
  deriving Repr

/-- Environment of one article-pipeline request: the outcome of the token
lookup, the outcome of invalidate-and-refresh, and the article endpoint's
response as a function of the token used and the call index (0 = first
call, 1 = the retry). -/
structure ArticleEnv (α : Type) where
  getToken : Except String String
  invalidate : Except String String
  call : String → Nat → Except String α

/-- Embedding of the control flow of `BatchGetPublishedArticles` from
`article_service.go` (the response payload is kept abstract as `α`; the
service mirrors it field-for-field). -/
def BatchGetPublishedArticles {α : Type} (env : ArticleEnv α) : ArticleOutcome α :=
  match env.getToken with
  | .error e =>
      { result := .error ("failed to get authorizer token: " ++ e),
        articleCalls := 0, invalidateCalls := 0 }
  | .ok token =>
    match env.call token 0 with
    | .ok resp => { result := .ok resp, articleCalls := 1, invalidateCalls := 0 }
    | .error err =>
      if isTokenExpiredError (some err) then
        match env.invalidate with
        | .error e =>
            { result := .error ("failed to refresh token: " ++ e),
              articleCalls := 1, invalidateCalls := 1 }
        | .ok token2 =>
          match env.call token2 1 with
          | .ok resp => { result := .ok resp, articleCalls := 2, invalidateCalls := 1 }
          | .error err2 =>
              { result := .error ("failed to get published articles: " ++ err2),
                articleCalls := 2, invalidateCalls := 1 }
      else
        { result := .error ("failed to get published articles: " ++ err),
          articleCalls := 1, invalidateCalls := 0 }

/-- Embedding of the control flow of `GetPublishedArticle` from
`article_service.go`: identical to the batch variant except for the final
wrap message `failed to get article`. -/
def GetPublishedArticle {α : Type} (env : ArticleEnv α) : ArticleOutcome α :=
  match env.getToken with
  | .error e =>
      { result := .error ("failed to get authorizer token: " ++ e),
        articleCalls := 0, invalidateCalls := 0 }
  | .ok token =>
    match env.call token 0 with
    | .ok resp => { result := .ok resp, articleCalls := 1, invalidateCalls := 0 }
    | .error err =>
      if isTokenExpiredError (some err) then
        match env.invalidate with
        | .error e =>
            { result := .error ("failed to refresh token: " ++ e),
              articleCalls := 1, invalidateCalls := 1 }
        | .ok token2 =>
          match env.call token2 1 with
          | .ok resp => { result := .ok resp, articleCalls := 2, invalidateCalls := 1 }
          | .error err2 =>
              { result := .error ("failed to get article: " ++ err2),
                articleCalls := 2, invalidateCalls := 1 }
      else
        { result := .error ("failed to get article: " ++ err),
          articleCalls := 1, invalidateCalls := 0 }

/-- Result of one Redis `GET`: the key is absent (`redis.Nil`), the read
failed with an error, or a value was found. -/
inductive RedisResult
  | nil
  | err (e : String)
  | val (v : String)
  deriving Repr, DecidableEq

/-- Embedding of `RedisRepository.GetAuthorizerToken` from `cache.go`:
`redis.Nil` maps to `("", nil)` (absence is not an error), a backend error
is wrapped, a present value is returned as-is. -/
def repoGetAuthorizerToken : RedisResult → String × Option String
  | .nil => ("", none)
  | .err e => ("", some ("failed to get authorizer token: " ++ e))
  | .val v => (v, none)

/-- Embedding of `RedisRepository.GetComponentToken` from `cache.go`,
symmetric to the authorizer variant. -/
def repoGetComponentToken : RedisResult → String × Option String
  | .nil => ("", none)
  | .err e => ("", some ("failed to get component token: " ++ e))
  | .val v => (v, none)

/-- `ProactiveRefreshThreshold = 10 * time.Minute` from `token_service.go`. -/
def ProactiveRefreshThreshold : Int := 10 * Cache.minute

/-- Environment of one token-manager request for a single identity: the
Redis read for the identity's key, the TTL probe (value and error), and
the outcome of the refresh closure (upstream fetch plus write-through). -/
structure TokenEnv where
  cacheGet : RedisResult
  ttl : Int
  ttlErr : Option String
  fetch : Except String String

/-- Outcome of one token-manager request: the token or fault, how many
times the refresh closure (and hence the upstream) ran during the request,
and whether a background proactive-refresh task was spawned. -/
structure TokenOutcome where
  result : Except String String
  upstreamCalls : Nat
  spawnedRefresh : Bool
  deriving Repr

/-- Embedding of `GetAuthorizerToken` from `token_service.go`: read the
cache (read errors are logged and degrade to a miss); a non-empty value is
returned immediately, spawning a background refresh only when the TTL
probe succeeds with `0 < ttl < ProactiveRefreshThreshold`; otherwise the
singleflight-guarded refresh closure runs. -/
def GetAuthorizerToken (env : TokenEnv) : TokenOutcome :=
  let read := repoGetAuthorizerToken env.cacheGet
  if read.1 ≠ "" then
    { result := .ok read.1, upstreamCalls := 0,
      spawnedRefresh := env.ttlErr.isNone && decide (0 < env.ttl) &&
        decide (env.ttl < ProactiveRefreshThreshold) }
  else
    match env.fetch with
    | .ok t => { result := .ok t, upstreamCalls := 1, spawnedRefresh := false }
    | .error e => { result := .error e, upstreamCalls := 1, spawnedRefresh := false }

/-- Embedding of `GetComponentToken` from `token_service.go`, structurally
identical to `GetAuthorizerToken` with the component key and closure. -/
def GetComponentToken (env : TokenEnv) : TokenOutcome :=
  let read := repoGetComponentToken env.cacheGet
  if read.1 ≠ "" then
    { result := .ok read.1, upstreamCalls := 0,
      spawnedRefresh := env.ttlErr.isNone && decide (0 < env.ttl) &&
        decide (env.ttl < ProactiveRefreshThreshold) }
  else
    match env.fetch with
    | .ok t => { result := .ok t, upstreamCalls := 1, spawnedRefresh := false }
    | .error e => { result := .error e, upstreamCalls := 1, spawnedRefresh := false }

/-- Embedding of `InvalidateAndRefreshToken` from `token_service.go` over
an explicit single-key cache state (`none` = entry absent).  The cached
entry is deleted first (delete errors are swallowed and logged; `deleteOk`
says whether the delete actually removed the entry), then the refresh
closure runs synchronously, writing through only on success.  Returns the
service result and the cache state after the call. -/
def InvalidateAndRefreshToken (st : Option String) (deleteOk : Bool)
    (fetch : Except String String) : Except String String × Option String :=
  let st1 := if deleteOk then none else st
  match fetch with
  | .ok t => (.ok t, some t)
  | .error e => (.error e, st1)

/-- View of the explicit single-key cache state as a Redis `GET` result. -/
def stateRead : Option String → RedisResult
  | none => .nil
  | some v => .val v

end Service

namespace Grpc

/-- The fields of `pb.BatchGetArticlesRequest` used by the handler. -/
structure BatchGetArticlesRequest where
  authorizerAppid : String
  offset : Int
  count : Int
  noContent : Int

/-- The fields of `pb.GetArticleRequest` used by the handler. -/
structure GetArticleRequest where
  authorizerAppid : String
  articleId : String

/-- A gRPC status error as produced by the handler. -/
inductive GrpcStatus
  | invalidArgument (msg : String)
  | internal (msg : String)
  deriving Repr, DecidableEq

/-- Embedding of `validateBatchGetRequest` from the gRPC handler. -/
def validateBatchGetRequest (req : BatchGetArticlesRequest) : Option GrpcStatus :=
  if req.authorizerAppid = "" then
    some (.invalidArgument "authorizer_appid is required")
  else if req.offset < 0 then
    some (.invalidArgument "offset must be >= 0")
  else if req.count < 1 ∨ req.count > 20 then
    some (.invalidArgument "count must be between 1 and 20")
  else if req.noContent ≠ 0 ∧ req.noContent ≠ 1 then
    some (.invalidArgument "no_content must be 0 or 1")
  else
    none

/-- Embedding of `validateGetArticleRequest` from the gRPC handler. -/
def validateGetArticleRequest (req : GetArticleRequest) : Option GrpcStatus :=
  if req.authorizerAppid = "" then
    some (.invalidArgument "authorizer_appid is required")
  else if req.articleId = "" then
    some (.invalidArgument "article_id is required")
  else
    none

/-- Embedding of the handler's `BatchGetPublishedArticles` RPC: validation
runs first and a validation error returns before the article service (and
hence any cache or upstream interaction) is invoked.  The second component
counts service invocations. -/
def handlerBatchGet {α : Type} (req : BatchGetArticlesRequest)
    (svc : Except String α) : Except GrpcStatus α × Nat :=
  match validateBatchGetRequest req with
  | some e => (.error e, 0)
  | none =>
    match svc with
    | .ok r => (.ok r, 1)
    | .error e => (.error (.internal ("failed to get articles: " ++ e)), 1)

/-- Embedding of the handler's `GetPublishedArticle` RPC, symmetric to the
batch variant. -/
def handlerGetArticle {α : Type} (req : GetArticleRequest)
    (svc : Except String α) : Except GrpcStatus α × Nat :=
  match validateGetArticleRequest req with
  | some e => (.error e, 0)
  | none =>
    match svc with
    | .ok r => (.ok r, 1)
    | .error e => (.error (.internal ("failed to get article: " ++ e)), 1)

end Grpc

namespace Singleflight

/-- Events on one singleflight key: a caller invoking `Do`, or the elected
leader's closure completing with a result. -/
inductive SFEvent (R : Type)
  | join (c : Nat)
  | complete (r : R)

/-- State of one singleflight key: whether a closure is in flight, which
callers await its result, how many closure executions (upstream refreshes)
have started, and which results have been delivered to which callers. -/
structure SFState (R : Type) where
  inflight : Bool
  waiters : List Nat
  upstreamCalls : Nat
  delivered : List (Nat × R)

/-- Modelled from the spec: the per-key semantics of
`golang.org/x/sync/singleflight.Group.Do` (the library itself is not among
this repository's sources; `token_service.go` calls
`s.sfGroup.Do("authorizer_token:"+authorizerAppID, closure)` on a cache
miss).  A `join c` is caller `c` invoking `Do` after observing a miss: the
first caller is elected leader and starts the refresh closure — one
upstream invocation; callers arriving while the flight is in progress
attach to it and wait.  A `complete r` is the leader's closure finishing
with result `r` (value or fault), which is delivered to every attached
caller, closing the flight. -/
def sfStep {R : Type} (s : SFState R) : SFEvent R → SFState R
  | .join c =>
    if s.inflight then
      { s with waiters := c :: s.waiters }
    else
      { s with inflight := true, waiters := [c],
               upstreamCalls := s.upstreamCalls + 1 }
  | .complete r =>
    if s.inflight then
      { inflight := false, waiters := [],
        upstreamCalls := s.upstreamCalls,
        delivered := s.waiters.map (fun c => (c, r)) ++ s.delivered }
    else s

/-- The initial state of a singleflight key: no flight, no history. -/
def sfInit {R : Type} : SFState R :=
  { inflight := false, waiters := [], upstreamCalls := 0, delivered := [] }

/-- Run a trace of events on one singleflight key from the initial state. -/
def sfRun {R : Type} (events : List (SFEvent R)) : SFState R :=
  events.foldl sfStep sfInit

/-- The singleflight key built by `GetAuthorizerToken` in `token_service.go`. -/
def authorizerTokenKey (authorizerAppID : String) : String :=
  "authorizer_token:" ++ authorizerAppID

end Singleflight

namespace Breaker

/-- Modelled from the spec: the three circuit-breaker states of
`sony/gobreaker` (the library is not among this repository's sources;
`NewCircuitBreakerClient` configures it).  `closed` counts consecutive
failures, `opened` remembers when the breaker tripped, `halfOpen` counts
the probes currently admitted. -/
inductive BState
  | closed (consecutiveFailures : Nat)
  | opened (since : Int)
  | halfOpen (inflight : Nat)
  deriving Repr, DecidableEq

/-- `MaxRequests: 3` from `NewCircuitBreakerClient`. -/
def maxRequests : Nat := 3

/-- `Timeout: 60 * time.Second` from `NewCircuitBreakerClient`, nanoseconds. -/
def timeout : Int := 60 * Cache.second

/-- `ReadyToTrip: counts.ConsecutiveFailures >= 5` from `NewCircuitBreakerClient`. -/
def readyToTrip (consecutiveFailures : Nat) : Bool :=
  consecutiveFailures ≥ 5

/-- Admission decision for one call through the breaker. -/
inductive Admit
  | proceed
  | rejectOpen
  | rejectTooMany
  deriving Repr, DecidableEq

/-- Modelled from the spec: admission on call entry.  Closed always admits;
open admits nothing until `timeout` has elapsed since the trip, upon which
the breaker turns half-open and the call becomes a probe; half-open admits
at most `maxRequests` concurrent probes and rejects the rest. -/
def beforeCall (st : BState) (now : Int) : BState × Admit :=
  match st with
  | .closed n => (.closed n, .proceed)
  | .opened since =>
      if now - since ≥ timeout then (.halfOpen 1, .proceed)
      else (.opened since, .rejectOpen)
  | .halfOpen k =>
      if k < maxRequests then (.halfOpen (k + 1), .proceed)
      else (.halfOpen k, .rejectTooMany)

/-- Modelled from the spec: state update when an admitted call returns.  In
closed state a success resets the consecutive-failure count and a failure
increments it, tripping to open when `readyToTrip`; in half-open a success
closes the breaker and a failure re-opens it. -/
def afterCall (st : BState) (now : Int) (success : Bool) : BState :=
  match st with
  | .closed n =>
      if success then .closed 0
      else if readyToTrip (n + 1) then .opened now else .closed (n + 1)
  | .halfOpen _ => if success then .closed 0 else .opened now
  | .opened since => .opened since

/-- `wrapError` from the circuit-breaker client source: its two branches
wrap `gobreaker.ErrOpenState` (message "circuit breaker is open") and
`gobreaker.ErrTooManyRequests` (message "too many requests") with
`fmt.Errorf`. -/
def wrapError : Admit → Option String
  | .proceed => none
  | .rejectOpen =>
      some "wechat api circuit breaker is open: circuit breaker is open"
  | .rejectTooMany =>
      some ("wechat api circuit breaker: too many requests in half-open state: " ++
        "too many requests")

/-- One call through the breaker-wrapped client (e.g.
`CircuitBreakerClient.GetComponentAccessToken`): admission first; only an
admitted call invokes the inner client.  Returns the new state, the result
seen by the caller, and the number of inner-client invocations. -/
def cbExecute (st : BState) (now : Int) (inner : Except String String) :
    BState × Except String String × Nat :=
  match beforeCall st now with
  | (st1, .proceed) =>
      match inner with
      | .ok v => (afterCall st1 now true, .ok v, 1)
      | .error e => (afterCall st1 now false, .error e, 1)
  | (st1, .rejectOpen) =>
      (st1, .error "wechat api circuit breaker is open: circuit breaker is open", 0)
  | (st1, .rejectTooMany) =>
      (st1, .error ("wechat api circuit breaker: too many requests in half-open state: " ++
        "too many requests"), 0)

/-- `n` consecutive failing calls through the breaker at time `now`. -/
def cbFailCalls (now : Int) : Nat → BState → BState
  | 0, st => st
  | n + 1, st => cbFailCalls now n (cbExecute st now (.error "transport")).1

end Breaker

namespace Cache

theorem wrap64_eq_self (x : Int) (hlo : -(2 ^ 63) ≤ x) (hhi : x ≤ 2 ^ 63 - 1) :
    wrap64 x = x := by
  unfold wrap64
  have e63 : (2 : Int) ^ 63 = 9223372036854775808 := by norm_num
  have e64 : (2 : Int) ^ 64 = 18446744073709551616 := by norm_num
  rw [Int.emod_eq_of_lt (by rw [e63] at hlo ⊢; linarith)
    (by rw [e63] at hhi; rw [e63, e64]; linarith)]
  ring

/-- Claim C1 (counterexample): at `lifetime_seconds = 300` the difference
`L*second - 5*minute` is exactly zero, which is non-positive, so the claim
demands the fallback `L*second / 2 = 150*second` and a strictly positive
TTL; the code tests `ttl < 0` (strictly negative), takes no fallback, and
returns a TTL of exactly `0`.  Moreover the claim quantifies over every
`L > 0`, but at `L = 10^10` the `int64` product `L*second` wraps to a
negative duration and the code returns the negative TTL
`-4223372036854775808`, so `0 < ttl(L) < L*second` also fails by overflow. -/
theorem calculateTTL_claim_false_at_300 :
    (300 * second - 5 * minute ≤ 0 ∧
     CalculateTTL 300 = 0 ∧
     CalculateTTL 300 ≠ Int.tdiv (300 * second) 2 ∧
     ¬ (0 < CalculateTTL 300)) ∧
    (CalculateTTL 10000000000 = -4223372036854775808 ∧
     ¬ (0 < CalculateTTL 10000000000)) := by
  refine ⟨⟨by decide, by decide, by decide, by decide⟩, by decide, by decide⟩

/-- Claim C1 (amended): for every `lifetime_seconds L > 0` whose lifetime
in nanoseconds fits in `int64` (`L*second ≤ 2^63 - 1`, i.e.
`L ≤ 9223372036`), the computed TTL equals `L*second - 5*minute` when that
difference is non-negative and `L*second / 2` when it is strictly
negative; within that range the TTL satisfies `0 ≤ ttl(L) < L*second`, and
it is strictly positive for every `L ≠ 300`.  Beyond that range the `int64`
product wraps and the returned TTL can be negative. -/
theorem calculateTTL_spec (L : Int) (hL : 0 < L) (hrange : L * second ≤ 2 ^ 63 - 1) :
    (300 ≤ L → CalculateTTL L = L * second - 5 * minute) ∧
    (L < 300 → CalculateTTL L = Int.tdiv (L * second) 2) ∧
    0 ≤ CalculateTTL L ∧
    CalculateTTL L < L * second ∧
    (L ≠ 300 → 0 < CalculateTTL L) := by
  have hnn : 0 ≤ L * second := mul_nonneg hL.le (by norm_num [second])
  have hm : wrap64 (L * second) = L * second :=
    wrap64_eq_self _ (le_trans (by norm_num) hnn) hrange
  have hmargin : (SafetyMargin : Int) = 300000000000 := by
    norm_num [SafetyMargin, minute, second]
  have ht : wrap64 (wrap64 (L * second) - SafetyMargin) = L * second - SafetyMargin := by
    rw [hm]
    exact wrap64_eq_self _ (by rw [hmargin]; norm_num; linarith)
      (by rw [hmargin]; linarith)
  have hCal : CalculateTTL L =
      if L * second - SafetyMargin < 0 then Int.tdiv (L * second) 2
      else L * second - SafetyMargin := by
    unfold CalculateTTL
    rw [ht, hm]
  obtain ⟨n, rfl⟩ : ∃ n : ℕ, L = (n : Int) := Int.eq_ofNat_of_zero_le hL.le
  have hcast : (n : Int) * (1000000000 : Int) = ((n * 1000000000 : ℕ) : Int) := by
    push_cast
    ring
  have hdiv : Int.tdiv ((n : Int) * (1000000000 : Int)) 2 =
      (((n * 1000000000) / 2 : ℕ) : Int) := by
    rw [hcast, show (2 : Int) = ((2 : ℕ) : Int) from rfl, ← Int.ofNat_tdiv]
  rw [hCal]
  simp only [SafetyMargin, minute, second] at hL ⊢
  by_cases h : (n : Int) * 1000000000 - 5 * (60 * 1000000000) < 0
  · simp only [if_pos h, hdiv]
    refine ⟨?_, ?_, ?_, ?_, ?_⟩ <;> first | omega | exact fun _ => trivial
  · simp only [if_neg h, hdiv]
    refine ⟨?_, ?_, ?_, ?_, ?_⟩ <;> first | omega | exact fun _ => trivial

/-- Witness for `calculateTTL_spec` at `L = 7200` (the usual two-hour
lifetime, well inside the `int64` range): TTL is `7200s - 300s = 6900s`. -/
theorem calculateTTL_spec_witness :
    (0 : Int) < 7200 ∧ 7200 * second ≤ 2 ^ 63 - 1 ∧
    CalculateTTL 7200 = 6900 * second := by
  refine ⟨by decide, by decide, ?_⟩
  have h := (calculateTTL_spec 7200 (by decide) (by decide)).1 (by decide)
  rw [h]
  decide

end Cache

namespace Client

theorem expBackoff_zero : expBackoff 0 = InitialBackoff := by decide

theorem expBackoff_le_max (i : Nat) : expBackoff i ≤ MaxBackoff := by
  have h : expBackoff i ≤ 5000000000 := min_le_right _ _
  simpa [MaxBackoff] using h

theorem nextBackoff_expBackoff (i : Nat) : nextBackoff (expBackoff i) = expBackoff (i + 1) := by
  rcases le_or_lt i 5 with h | h
  · interval_cases i <;> decide
  · have h6 : 6 ≤ i := h
    have hpow : (64 : Int) ≤ 2 ^ i := by
      calc (64 : Int) = 2 ^ 6 := by norm_num
        _ ≤ 2 ^ i := pow_le_pow_right₀ (by norm_num) h6
    have h1 : (5000000000 : Int) ≤ 100000000 * 2 ^ i := by nlinarith
    have h2 : (5000000000 : Int) ≤ 100000000 * 2 ^ (i + 1) := by
      have hmono : (2 : Int) ^ i ≤ 2 ^ (i + 1) :=
        pow_le_pow_right₀ (by norm_num) (Nat.le_succ i)
      nlinarith
    simp only [expBackoff, min_eq_right h1, min_eq_right h2, nextBackoff, MaxBackoff]
    norm_num

theorem retryGo_succ_fail (res : Nat → Option String) (fuel attempt : Nat) (backoff : Int)
    (lastErr : Option String) (e : String) (he : res attempt = some e) (hpos : 0 < attempt) :
    retryGo res (fuel + 1) attempt backoff lastErr =
      { result := (retryGo res fuel (attempt + 1) (nextBackoff backoff) (some e)).result,
        attempts := (retryGo res fuel (attempt + 1) (nextBackoff backoff) (some e)).attempts,
        waits := backoff ::
          (retryGo res fuel (attempt + 1) (nextBackoff backoff) (some e)).waits } := by
  conv_lhs => rw [retryGo]
  simp only [he, if_pos hpos]
  rfl

theorem retryGo_succ_fail_zero (res : Nat → Option String) (fuel : Nat) (backoff : Int)
    (lastErr : Option String) (e : String) (he : res 0 = some e) :
    retryGo res (fuel + 1) 0 backoff lastErr =
      retryGo res fuel 1 backoff (some e) := by
  conv_lhs => rw [retryGo]
  simp only [he]
  rfl

theorem retryGo_succ_ok (res : Nat → Option String) (fuel attempt : Nat) (backoff : Int)
    (lastErr : Option String) (he : res attempt = none) :
    retryGo res (fuel + 1) attempt backoff lastErr =
      { result := none, attempts := attempt + 1,
        waits := if attempt > 0 then [backoff] else [] } := by
  conv_lhs => rw [retryGo]
  simp only [he]

theorem retryGo_all_fail (res : Nat → Option String) (fuel : Nat) :
    ∀ attempt : Nat, 1 ≤ attempt →
    (∀ i, attempt ≤ i → i < attempt + (fuel + 1) → (res i).isSome) →
    ∀ lastErr : Option String,
    retryGo res (fuel + 1) attempt (expBackoff (attempt - 1)) lastErr =
      { result := some ("all retries exhausted: " ++ (res (attempt + fuel)).getD ""),
        attempts := attempt + fuel + 1,
        waits := (List.range' (attempt - 1) (fuel + 1)).map expBackoff } := by
  induction fuel with
  | zero =>
    intro attempt h1 hall lastErr
    obtain ⟨e, he⟩ := Option.isSome_iff_exists.mp (hall attempt le_rfl (by omega))
    rw [retryGo_succ_fail res 0 attempt _ lastErr e he (by omega)]
    simp [retryGo, he, List.range']
  | succ fuel ih =>
    intro attempt h1 hall lastErr
    obtain ⟨e, he⟩ := Option.isSome_iff_exists.mp (hall attempt le_rfl (by omega))
    have hb : nextBackoff (expBackoff (attempt - 1)) = expBackoff (attempt + 1 - 1) := by
      have ha : attempt - 1 + 1 = attempt + 1 - 1 := by omega
      rw [nextBackoff_expBackoff, ha]
    have hrec := ih (attempt + 1) (by omega)
      (fun i hi hi' => hall i (by omega) (by omega)) (some e)
    rw [retryGo_succ_fail res (fuel + 1) attempt _ lastErr e he (by omega), hb, hrec]
    have hr : List.range' (attempt - 1) (fuel + 1 + 1) =
        (attempt - 1) :: List.range' (attempt - 1 + 1) (fuel + 1) :=
      List.range'_succ (attempt - 1) (fuel + 1) 1
    have ha2 : attempt - 1 + 1 = attempt + 1 - 1 := by omega
    have ha3 : attempt + 1 + fuel = attempt + (fuel + 1) := by omega
    have ha4 : attempt + 1 + fuel + 1 = attempt + (fuel + 1) + 1 := by omega
    simp [hr, ha2, ha3, ha4]

theorem retryGo_first_success (res : Nat → Option String) (fuel : Nat) :
    ∀ attempt : Nat, ∀ backoff : Int, ∀ lastErr : Option String, ∀ j : Nat,
    attempt ≤ j → j < attempt + fuel →
    (∀ i, attempt ≤ i → i < j → (res i).isSome) → res j = none →
    (retryGo res fuel attempt backoff lastErr).result = none ∧
    (retryGo res fuel attempt backoff lastErr).attempts = j + 1 := by
  induction fuel with
  | zero => intro attempt backoff lastErr j hj hj' _ _; omega
  | succ fuel ih =>
    intro attempt backoff lastErr j hj hj' hfail hj0
    rcases eq_or_lt_of_le hj with rfl | hlt
    · rw [retryGo_succ_ok res fuel attempt backoff lastErr hj0]
      exact ⟨rfl, rfl⟩
    · obtain ⟨e, he⟩ := Option.isSome_iff_exists.mp (hfail attempt le_rfl hlt)
      have hrec := ih (attempt + 1) (nextBackoff backoff)
        (some e) j (by omega) (by omega) (fun i hi hi' => hfail i (by omega) hi') hj0
      rcases Nat.eq_zero_or_pos attempt with rfl | hpos
      · rw [retryGo_succ_fail_zero res fuel backoff lastErr e he]
        exact ih 1 backoff (some e) j (by omega) (by omega)
          (fun i hi hi' => hfail i (by omega) hi') hj0
      · rw [retryGo_succ_fail res fuel attempt backoff lastErr e he hpos]
        exact hrec

/-- Claim C5: for any configured `max_retries = k ≥ 0`, when every `doRequest`
attempt fails with a transport fault, `doRequestWithRetry` performs exactly
`k + 1` attempts, sleeps `min(100ms * 2^i, 5s)` before the (i+1)-st retry
(backoff starts at 100 ms, doubles, capped at 5 s), and returns the
transport fault wrapped as "all retries exhausted"; a successful attempt
stops the loop immediately with a `nil` error. -/
theorem doRequestWithRetry_spec (k : Nat) (res : Nat → Option String) :
    ((∀ i, i ≤ k → (res i).isSome) →
      (doRequestWithRetry k res).attempts = k + 1 ∧
      (doRequestWithRetry k res).result =
        some ("all retries exhausted: " ++ (res k).getD "") ∧
      (doRequestWithRetry k res).waits = (List.range k).map expBackoff ∧
      expBackoff 0 = InitialBackoff ∧
      (∀ i, expBackoff (i + 1) = nextBackoff (expBackoff i)) ∧
      (∀ i, expBackoff i ≤ MaxBackoff)) ∧
    (∀ j, j ≤ k → (∀ i, i < j → (res i).isSome) → res j = none →
      (doRequestWithRetry k res).result = none ∧
      (doRequestWithRetry k res).attempts = j + 1) := by
  constructor
  · intro hall
    obtain ⟨e, he⟩ := Option.isSome_iff_exists.mp (hall 0 (Nat.zero_le k))
    have hstep : doRequestWithRetry k res = retryGo res k 1 InitialBackoff (some e) := by
      unfold doRequestWithRetry
      exact retryGo_succ_fail_zero res k InitialBackoff none e he
    rcases Nat.eq_zero_or_pos k with rfl | hk
    · refine ⟨?_, ?_, ?_, expBackoff_zero, fun i => (nextBackoff_expBackoff i).symm,
        expBackoff_le_max⟩ <;> simp [hstep, retryGo, he]
    · obtain ⟨s, rfl⟩ := Nat.exists_eq_add_of_lt hk
      rw [Nat.zero_add] at *
      have hib : InitialBackoff = expBackoff (1 - 1) := by decide
      have hall' : ∀ i, 1 ≤ i → i < 1 + (s + 1) → (res i).isSome :=
        fun i _ hi' => hall i (by omega)
      have h := retryGo_all_fail res s 1 le_rfl hall' (some e)
      rw [hstep, hib, h]
      have hr : List.range' 0 (s + 1) = List.range (s + 1) := (List.range_eq_range' _).symm
      have h15 : 1 + s = s + 1 := by omega
      refine ⟨by simp only []; omega, by simp only [h15], ?_, expBackoff_zero,
        fun i => (nextBackoff_expBackoff i).symm, expBackoff_le_max⟩
      simp [hr]
  · intro j hj hfail hj0
    exact retryGo_first_success res (k + 1) 0 InitialBackoff none j (Nat.zero_le j)
      (by omega) (fun i _ hi' => hfail i hi') hj0

/-- Witness for `doRequestWithRetry_spec` at `k = 2` with every attempt
failing: 3 attempts, waits of 100 ms and 200 ms, and the wrapped transport
fault; and at `k = 2` with the second attempt succeeding: 2 attempts. -/
theorem doRequestWithRetry_spec_witness :
    (doRequestWithRetry 2 (fun _ => some "unexpected status code: 500")).attempts = 3 ∧
    (doRequestWithRetry 2 (fun _ => some "unexpected status code: 500")).result =
      some "all retries exhausted: unexpected status code: 500" ∧
    (doRequestWithRetry 2 (fun _ => some "unexpected status code: 500")).waits =
      [100000000, 200000000] ∧
    (doRequestWithRetry 2 (fun i => if i = 1 then none else some "boom")).result = none ∧
    (doRequestWithRetry 2 (fun i => if i = 1 then none else some "boom")).attempts = 2 := by
  have h1 := (doRequestWithRetry_spec 2 (fun _ => some "unexpected status code: 500")).1
    (fun i _ => rfl)
  have h2 := (doRequestWithRetry_spec 2 (fun i => if i = 1 then none else some "boom")).2
    1 (by omega) (fun i hi => by interval_cases i <;> rfl) rfl
  refine ⟨h1.1, ?_, ?_, h2.1, h2.2⟩
  · rw [h1.2.1]
    rfl
  · rw [h1.2.2.1]
    rfl

end Client

namespace Service

theorem code40001_occurs (errmsg : String) :
    "code=40001".data <:+: (wechatAPIError 40001 errmsg).data := by
  have h1 : wechatAPIError 40001 errmsg = "wechat api error: code=40001, msg=" ++ errmsg := rfl
  rw [h1, String.data_append]
  exact List.IsInfix.trans
    (by decide : "code=40001".data <:+: "wechat api error: code=40001, msg=".data)
    ((List.prefix_append _ _).isInfix)

theorem code42001_occurs (errmsg : String) :
    "code=42001".data <:+: (wechatAPIError 42001 errmsg).data := by
  have h1 : wechatAPIError 42001 errmsg = "wechat api error: code=42001, msg=" ++ errmsg := rfl
  rw [h1, String.data_append]
  exact List.IsInfix.trans
    (by decide : "code=42001".data <:+: "wechat api error: code=42001, msg=".data)
    ((List.prefix_append _ _).isInfix)

/-- Claim C3 (counterexample): an upstream fault with errcode 400011 — not
40001 and not 42001 — is nevertheless classified as credential-expired,
because `isTokenExpiredError` tests for the substring "code=40001", which
also occurs in "code=400011".  So "only payloads carrying errcode 40001 or
42001 are so classified" is false. -/
theorem isTokenExpiredError_claim_false :
    isTokenExpiredError (some (wechatAPIError 400011 "invalid credential")) = true ∧
    (400011 : Int) ≠ 40001 ∧ (400011 : Int) ≠ 42001 := by
  refine ⟨by decide, by decide, by decide⟩

/-- Claim C3 (amended): the classification looks only at the error string:
an error is classified as credential-expired exactly when its message
contains "code=40001" or "code=42001" as a substring.  Hence every fault
built by the client from errcode 40001 or 42001 is classified, and a `nil`
error never is; but faults whose errcode's decimal form merely extends
40001 or 42001 (such as 400011) are classified too. -/
theorem isTokenExpiredError_spec (errmsg : String) (err : Option String) :
    isTokenExpiredError none = false ∧
    isTokenExpiredError (some (wechatAPIError 40001 errmsg)) = true ∧
    isTokenExpiredError (some (wechatAPIError 42001 errmsg)) = true ∧
    (isTokenExpiredError err = true →
      ∃ m, err = some m ∧
        ("code=40001".data <:+: m.data ∨ "code=42001".data <:+: m.data)) := by
  refine ⟨rfl, ?_, ?_, ?_⟩
  · simp only [isTokenExpiredError, strContains, Bool.or_eq_true, decide_eq_true_eq]
    exact Or.inl (code40001_occurs errmsg)
  · simp only [isTokenExpiredError, strContains, Bool.or_eq_true, decide_eq_true_eq]
    exact Or.inr (code42001_occurs errmsg)
  · intro h
    cases err with
    | none => exact absurd h (by simp [isTokenExpiredError])
    | some m =>
        refine ⟨m, rfl, ?_⟩
        simpa only [isTokenExpiredError, strContains, Bool.or_eq_true,
          decide_eq_true_eq] using h

/-- Witness for `isTokenExpiredError_spec`: the literal scenario-3 fault
`errcode 42001, "access_token expired"` is classified as expired. -/
theorem isTokenExpiredError_spec_witness :
    isTokenExpiredError (some (wechatAPIError 42001 "access_token expired")) = true :=
  (isTokenExpiredError_spec "access_token expired" none).2.2.1

/-- Claim C4: when the first article call returns a credential-expired
fault, both pipeline functions perform exactly one invalidate-and-refresh;
if it fails its fault is propagated (wrapped as "failed to refresh token")
with no second article call; if it succeeds, exactly one more article call
is made with the new token and its result is returned — a success verbatim,
a fault wrapped in the standard final message — with no second
invalidate-retry round even if that second fault is again
credential-expired. -/
theorem articlePipeline_expiry_recovery {α : Type} (env : ArticleEnv α)
    (token err : String)
    (htok : env.getToken = .ok token)
    (hfirst : env.call token 0 = .error err)
    (hexp : isTokenExpiredError (some err) = true) :
    (BatchGetPublishedArticles env).invalidateCalls = 1 ∧
    (GetPublishedArticle env).invalidateCalls = 1 ∧
    (∀ e, env.invalidate = .error e →
      (BatchGetPublishedArticles env).result = .error ("failed to refresh token: " ++ e) ∧
      (BatchGetPublishedArticles env).articleCalls = 1 ∧
      (GetPublishedArticle env).result = .error ("failed to refresh token: " ++ e) ∧
      (GetPublishedArticle env).articleCalls = 1) ∧
    (∀ token2, env.invalidate = .ok token2 →
      (BatchGetPublishedArticles env).articleCalls = 2 ∧
      (GetPublishedArticle env).articleCalls = 2 ∧
      (∀ r, env.call token2 1 = .ok r →
        (BatchGetPublishedArticles env).result = .ok r ∧
        (GetPublishedArticle env).result = .ok r) ∧
      (∀ e2, env.call token2 1 = .error e2 →
        (BatchGetPublishedArticles env).result =
          .error ("failed to get published articles: " ++ e2) ∧
        (GetPublishedArticle env).result = .error ("failed to get article: " ++ e2))) := by
  cases hinv : env.invalidate with
  | error e =>
      refine ⟨?_, ?_, ?_, ?_⟩ <;>
        simp [BatchGetPublishedArticles, GetPublishedArticle, htok, hfirst, hexp, hinv]
  | ok token2 =>
      cases hcall2 : env.call token2 1 with
      | ok r =>
          refine ⟨?_, ?_, ?_, ?_⟩ <;>
            simp [BatchGetPublishedArticles, GetPublishedArticle, htok, hfirst, hexp,
              hinv, hcall2]
      | error e2 =>
          refine ⟨?_, ?_, ?_, ?_⟩ <;>
            simp [BatchGetPublishedArticles, GetPublishedArticle, htok, hfirst, hexp,
              hinv, hcall2]

/-- Witness for `articlePipeline_expiry_recovery`: the literal scenario-3
run — stale token, first call fails with errcode 42001, refresh yields
"fresh", retry succeeds — makes one invalidate call, two article calls,
and returns the retry's payload. -/
theorem articlePipeline_expiry_recovery_witness :
    (BatchGetPublishedArticles
      { getToken := .ok "stale", invalidate := .ok "fresh",
        call := fun _ i => if i = 0 then
            .error (wechatAPIError 42001 "access_token expired")
          else .ok (42 : Nat) }).invalidateCalls = 1 ∧
    (BatchGetPublishedArticles
      { getToken := .ok "stale", invalidate := .ok "fresh",
        call := fun _ i => if i = 0 then
            .error (wechatAPIError 42001 "access_token expired")
          else .ok (42 : Nat) }).articleCalls = 2 ∧
    (BatchGetPublishedArticles
      { getToken := .ok "stale", invalidate := .ok "fresh",
        call := fun _ i => if i = 0 then
            .error (wechatAPIError 42001 "access_token expired")
          else .ok (42 : Nat) }).result = .ok 42 := by
  have h := articlePipeline_expiry_recovery
    (α := Nat)
    { getToken := .ok "stale", invalidate := .ok "fresh",
      call := fun _ i => if i = 0 then
          .error (wechatAPIError 42001 "access_token expired")
        else .ok (42 : Nat) }
    "stale" (wechatAPIError 42001 "access_token expired") rfl rfl
    (isTokenExpiredError_spec "access_token expired" none).2.2.1
  have h4 := h.2.2.2 "fresh" rfl
  exact ⟨h.1, h4.1, (h4.2.2.1 42 rfl).1⟩

/-- Claim C7: whenever the cache read for the identity's key yields a
non-empty value, the request performs zero upstream calls and returns
exactly the cached value; and when the remaining TTL is at least the
10-minute proactive-refresh threshold, no background refresh task is
spawned either.  This holds for both `GetAuthorizerToken` and
`GetComponentToken`. -/
theorem token_cache_first (env : TokenEnv) (v : String) (hv : v ≠ "")
    (hget : env.cacheGet = .val v) :
    (GetAuthorizerToken env).result = .ok v ∧
    (GetAuthorizerToken env).upstreamCalls = 0 ∧
    (GetComponentToken env).result = .ok v ∧
    (GetComponentToken env).upstreamCalls = 0 ∧
    (ProactiveRefreshThreshold ≤ env.ttl →
      (GetAuthorizerToken env).spawnedRefresh = false ∧
      (GetComponentToken env).spawnedRefresh = false) := by
  refine ⟨?_, ?_, ?_, ?_, fun h => ?_⟩
  case _ => simp [GetAuthorizerToken, repoGetAuthorizerToken, hget, hv]
  case _ => simp [GetAuthorizerToken, repoGetAuthorizerToken, hget, hv]
  case _ => simp [GetComponentToken, repoGetComponentToken, hget, hv]
  case _ => simp [GetComponentToken, repoGetComponentToken, hget, hv]
  case _ =>
    have hlt : decide (env.ttl < ProactiveRefreshThreshold) = false := by
      simp [not_lt.mpr h]
    constructor <;>
      simp [GetAuthorizerToken, GetComponentToken, repoGetAuthorizerToken,
        repoGetComponentToken, hget, hv, hlt]

/-- Witness for `token_cache_first`: the literal scenario-1 run — cached
value "cached-T1" with 30 minutes of TTL remaining — returns the cached
value with zero upstream calls and no background task. -/
theorem token_cache_first_witness :
    (GetAuthorizerToken
      { cacheGet := .val "cached-T1", ttl := 30 * Cache.minute,
        ttlErr := none, fetch := .ok "x" }).result = .ok "cached-T1" ∧
    (GetAuthorizerToken
      { cacheGet := .val "cached-T1", ttl := 30 * Cache.minute,
        ttlErr := none, fetch := .ok "x" }).upstreamCalls = 0 ∧
    (GetAuthorizerToken
      { cacheGet := .val "cached-T1", ttl := 30 * Cache.minute,
        ttlErr := none, fetch := .ok "x" }).spawnedRefresh = false := by
  have h := token_cache_first
    { cacheGet := .val "cached-T1", ttl := 30 * Cache.minute,
      ttlErr := none, fetch := .ok "x" }
    "cached-T1" (by decide) rfl
  exact ⟨h.1, h.2.1, (h.2.2.2.2 (by decide)).1⟩

/-- Claim C9: a cache lookup for an absent key returns `("", nil)`; the
Token Manager treats the empty string exactly like a miss — a request whose
cache read yields the empty string behaves identically to one whose read
found nothing, and in both cases the refresh closure runs; consequently
neither `GetAuthorizerToken` nor `GetComponentToken` can ever return an
empty token taken from the cache. -/
theorem cache_empty_indistinguishable_from_miss :
    repoGetAuthorizerToken .nil = ("", none) ∧
    repoGetComponentToken .nil = ("", none) ∧
    (∀ ttl ttlErr fetch,
      GetAuthorizerToken { cacheGet := .val "", ttl := ttl, ttlErr := ttlErr, fetch := fetch } =
        GetAuthorizerToken { cacheGet := .nil, ttl := ttl, ttlErr := ttlErr, fetch := fetch } ∧
      (GetAuthorizerToken
        { cacheGet := .val "", ttl := ttl, ttlErr := ttlErr, fetch := fetch }).upstreamCalls = 1 ∧
      GetComponentToken { cacheGet := .val "", ttl := ttl, ttlErr := ttlErr, fetch := fetch } =
        GetComponentToken { cacheGet := .nil, ttl := ttl, ttlErr := ttlErr, fetch := fetch }) ∧
    (∀ env v, (GetAuthorizerToken env).upstreamCalls = 0 →
      (GetAuthorizerToken env).result = .ok v → v ≠ "") ∧
    (∀ env v, (GetComponentToken env).upstreamCalls = 0 →
      (GetComponentToken env).result = .ok v → v ≠ "") := by
  refine ⟨rfl, rfl, ?_, ?_, ?_⟩
  · intro ttl ttlErr fetch
    cases fetch <;> exact ⟨rfl, rfl, rfl⟩
  · intro env v h0 hres
    unfold GetAuthorizerToken at h0 hres
    by_cases hne : (repoGetAuthorizerToken env.cacheGet).1 ≠ ""
    · simp only [if_pos hne] at hres
      have : v = (repoGetAuthorizerToken env.cacheGet).1 := by
        cases hres
        rfl
      rw [this]
      exact hne
    · simp only [if_neg hne] at h0
      cases henv : env.fetch <;> rw [henv] at h0 <;> exact absurd h0 (by simp)
  · intro env v h0 hres
    unfold GetComponentToken at h0 hres
    by_cases hne : (repoGetComponentToken env.cacheGet).1 ≠ ""
    · simp only [if_pos hne] at hres
      have : v = (repoGetComponentToken env.cacheGet).1 := by
        cases hres
        rfl
      rw [this]
      exact hne
    · simp only [if_neg hne] at h0
      cases henv : env.fetch <;> rw [henv] at h0 <;> exact absurd h0 (by simp)

/-- Witness for `cache_empty_indistinguishable_from_miss`: with an empty
string stored under the key, a lookup falls through to the refresh closure
and returns its token, exactly as with an absent key. -/
theorem cache_empty_indistinguishable_from_miss_witness :
    GetAuthorizerToken { cacheGet := .val "", ttl := 0, ttlErr := none, fetch := .ok "fresh" } =
      GetAuthorizerToken { cacheGet := .nil, ttl := 0, ttlErr := none, fetch := .ok "fresh" } ∧
    (GetAuthorizerToken
      { cacheGet := .val "", ttl := 0, ttlErr := none, fetch := .ok "fresh" }).upstreamCalls = 1 := by
  have h := cache_empty_indistinguishable_from_miss.2.2.1 0 none (.ok "fresh")
  exact ⟨h.1, h.2.1⟩

/-- Claim C10: `InvalidateAndRefreshToken` deletes the cached entry before
fetching, so when the refresh fails it returns the fault with the old
entry already gone — a subsequent cache lookup (before any other writer)
observes the `("", nil)` miss rather than the pre-call token. -/
theorem invalidateAndRefreshToken_deletes_before_fetch (v e : String) :
    (InvalidateAndRefreshToken (some v) true (.error e)).1 = .error e ∧
    (InvalidateAndRefreshToken (some v) true (.error e)).2 = none ∧
    repoGetAuthorizerToken
      (stateRead (InvalidateAndRefreshToken (some v) true (.error e)).2) = ("", none) :=
  ⟨rfl, rfl, rfl⟩

end Service

namespace Grpc

/-- Claim C8: every request with `count` outside `[1,20]`, or `offset < 0`,
or an empty tenant id, or (for article detail) an empty article id, is
rejected with an invalid-argument error before the article service — and
hence any cache or upstream interaction — is invoked (the second component
of the handler's outcome counts service invocations and is `0`); requests
satisfying all the documented constraints pass validation. -/
theorem validation_rejects_before_service {α : Type}
    (req : BatchGetArticlesRequest) (reqA : GetArticleRequest)
    (svc : Except String α) :
    ((req.count < 1 ∨ req.count > 20 ∨ req.offset < 0 ∨ req.authorizerAppid = "") →
      (∃ m, validateBatchGetRequest req = some (.invalidArgument m)) ∧
      (handlerBatchGet req svc).2 = 0 ∧
      (∃ m, (handlerBatchGet req svc).1 = .error (.invalidArgument m))) ∧
    ((req.authorizerAppid ≠ "" ∧ 0 ≤ req.offset ∧ 1 ≤ req.count ∧ req.count ≤ 20 ∧
        (req.noContent = 0 ∨ req.noContent = 1)) →
      validateBatchGetRequest req = none) ∧
    ((reqA.authorizerAppid = "" ∨ reqA.articleId = "") →
      (∃ m, validateGetArticleRequest reqA = some (.invalidArgument m)) ∧
      (handlerGetArticle reqA svc).2 = 0 ∧
      (∃ m, (handlerGetArticle reqA svc).1 = .error (.invalidArgument m))) ∧
    ((reqA.authorizerAppid ≠ "" ∧ reqA.articleId ≠ "") →
      validateGetArticleRequest reqA = none) := by
  refine ⟨?_, ?_, ?_, ?_⟩
  · intro hbad
    have hsome : ∃ m, validateBatchGetRequest req = some (.invalidArgument m) := by
      unfold validateBatchGetRequest
      split_ifs with h1 h2 h3 h4
      · exact ⟨_, rfl⟩
      · exact ⟨_, rfl⟩
      · exact ⟨_, rfl⟩
      · exact ⟨_, rfl⟩
      · rcases hbad with h | h | h | h
        · exact absurd (Or.inl h) h3
        · exact absurd (Or.inr h) h3
        · exact absurd h h2
        · exact absurd h h1
    obtain ⟨m, hm⟩ := hsome
    refine ⟨⟨m, hm⟩, ?_, ⟨m, ?_⟩⟩ <;> simp [handlerBatchGet, hm]
  · rintro ⟨h1, h2, h3, h4, h5⟩
    unfold validateBatchGetRequest
    rw [if_neg h1, if_neg (by omega), if_neg (by omega), if_neg (by tauto)]
  · intro hbad
    have hsome : ∃ m, validateGetArticleRequest reqA = some (.invalidArgument m) := by
      unfold validateGetArticleRequest
      split_ifs with h1 h2
      · exact ⟨_, rfl⟩
      · exact ⟨_, rfl⟩
      · rcases hbad with h | h
        · exact absurd h h1
        · exact absurd h h2
    obtain ⟨m, hm⟩ := hsome
    refine ⟨⟨m, hm⟩, ?_, ⟨m, ?_⟩⟩ <;> simp [handlerGetArticle, hm]
  · rintro ⟨h1, h2⟩
    unfold validateGetArticleRequest
    rw [if_neg h1, if_neg h2]

/-- Witness for `validation_rejects_before_service`: `count = 21` is
rejected with zero service calls, and the valid request
`(tenant "wx1", offset 0, count 10, no_content 0)` passes validation. -/
theorem validation_rejects_before_service_witness :
    (handlerBatchGet
      { authorizerAppid := "wx1", offset := 0, count := 21, noContent := 0 }
      (Except.ok (0 : Nat))).2 = 0 ∧
    validateBatchGetRequest
      { authorizerAppid := "wx1", offset := 0, count := 10, noContent := 0 } = none ∧
    (handlerGetArticle { authorizerAppid := "wx1", articleId := "" }
      (Except.ok (0 : Nat))).2 = 0 := by
  have h1 := (validation_rejects_before_service
    { authorizerAppid := "wx1", offset := 0, count := 21, noContent := 0 }
    { authorizerAppid := "wx1", articleId := "" } (Except.ok (0 : Nat))).1
    (Or.inr (Or.inl (by norm_num)))
  have h2 := (validation_rejects_before_service
    { authorizerAppid := "wx1", offset := 0, count := 10, noContent := 0 }
    { authorizerAppid := "wx1", articleId := "" } (Except.ok (0 : Nat))).2.1
    ⟨by decide, by norm_num, by norm_num, by norm_num, Or.inl rfl⟩
  have h3 := (validation_rejects_before_service
    { authorizerAppid := "wx1", offset := 0, count := 21, noContent := 0 }
    { authorizerAppid := "wx1", articleId := "" } (Except.ok (0 : Nat))).2.2.1
    (Or.inr rfl)
  exact ⟨h1.2.1, h2, h3.2.1⟩

end Grpc

namespace Singleflight

theorem sfRun_joins_inflight {R : Type} (cs : List Nat) :
    ∀ s : SFState R, s.inflight = true →
    (cs.map SFEvent.join).foldl sfStep s =
      { s with waiters := cs.reverse ++ s.waiters } := by
  induction cs with
  | nil => intro s _; simp
  | cons c cs ih =>
    intro s h
    have hstep : sfStep s (SFEvent.join c) =
        { inflight := true, waiters := c :: s.waiters,
          upstreamCalls := s.upstreamCalls, delivered := s.delivered } := by
      simp [sfStep, h]
    simp only [List.map_cons, List.foldl_cons, hstep]
    rw [ih _ rfl]
    simp [h]

/-- Claim C2: for any `N ≥ 1` callers of `tenant_token(x)` that all observe
a cache miss and enter the singleflight step for the key
`authorizer_token: + x` while the first caller's refresh is in flight, the
refresh closure — and hence the upstream — runs exactly once, every caller
is delivered the leader's result `r` (the same token value, or the same
fault), and nothing but `r` is ever delivered. -/
theorem singleflight_coalesces {R : Type} (c0 : Nat) (cs : List Nat) (r : R) :
    (sfRun (List.map SFEvent.join (c0 :: cs) ++ [SFEvent.complete r])).upstreamCalls = 1 ∧
    (∀ c, c ∈ c0 :: cs →
      (c, r) ∈ (sfRun (List.map SFEvent.join (c0 :: cs) ++ [SFEvent.complete r])).delivered) ∧
    (∀ p, p ∈ (sfRun (List.map SFEvent.join (c0 :: cs) ++ [SFEvent.complete r])).delivered →
      p.2 = r) := by
  have h1 : sfStep (sfInit (R := R)) (SFEvent.join c0) =
      { inflight := true, waiters := [c0], upstreamCalls := 1, delivered := [] } := rfl
  have h2 := sfRun_joins_inflight (R := R) cs
    { inflight := true, waiters := [c0], upstreamCalls := 1, delivered := [] } rfl
  have hrun : sfRun (List.map SFEvent.join (c0 :: cs) ++ [SFEvent.complete r]) =
      { inflight := false, waiters := [],
        upstreamCalls := 1,
        delivered := (cs.reverse ++ [c0]).map (fun c => (c, r)) } := by
    unfold sfRun
    rw [List.map_cons, List.foldl_append, List.foldl_cons, List.foldl_cons, List.foldl_nil,
      h1, h2]
    simp [sfStep]
  rw [hrun]
  refine ⟨rfl, ?_, ?_⟩
  · intro c hc
    simp only [List.mem_map]
    refine ⟨c, ?_, rfl⟩
    rcases List.mem_cons.mp hc with rfl | h
    · simp
    · simp [h]
  · intro p hp
    simp only [List.mem_map] at hp
    obtain ⟨c, _, rfl⟩ := hp
    rfl

/-- Witness for `singleflight_coalesces`: ten concurrent callers on a miss
(scenario 4), with the upstream replying "tok": one upstream call, and
caller 7 (like every other) receives "tok". -/
theorem singleflight_coalesces_witness :
    (sfRun (List.map SFEvent.join [0, 1, 2, 3, 4, 5, 6, 7, 8, 9] ++
      [SFEvent.complete (Except.ok "tok" : Except String String)])).upstreamCalls = 1 ∧
    ((7 : Nat), (Except.ok "tok" : Except String String)) ∈
      (sfRun (List.map SFEvent.join [0, 1, 2, 3, 4, 5, 6, 7, 8, 9] ++
        [SFEvent.complete (Except.ok "tok" : Except String String)])).delivered := by
  have h := singleflight_coalesces 0 [1, 2, 3, 4, 5, 6, 7, 8, 9]
    (Except.ok "tok" : Except String String)
  exact ⟨h.1, h.2.1 7 (by simp)⟩

end Singleflight

namespace Breaker

/-- Claim C6: starting closed with a clean slate, five consecutive failing
calls trip the breaker to open; while open and before the 60 s timeout
every call — regardless of what the inner client would return — fails fast
with the wrapped breaker-open fault and zero inner-client invocations;
once the timeout has elapsed the next call is admitted as a half-open
probe; half-open admits at most 3 concurrent probes and fails further
concurrent calls with the wrapped breaker-overloaded fault, again without
invoking the inner client. -/
theorem breaker_trip_and_halfopen (t now : Int) (k : Nat) :
    cbFailCalls t 5 (.closed 0) = .opened t ∧
    (now - t < timeout →
      cbExecute (.opened t) now (.error "transport") =
        (.opened t, .error "wechat api circuit breaker is open: circuit breaker is open", 0) ∧
      cbExecute (.opened t) now (.ok "v") =
        (.opened t, .error "wechat api circuit breaker is open: circuit breaker is open", 0)) ∧
    (timeout ≤ now - t →
      beforeCall (.opened t) now = (.halfOpen 1, .proceed)) ∧
    (k < maxRequests →
      beforeCall (.halfOpen k) now = (.halfOpen (k + 1), .proceed)) ∧
    (maxRequests ≤ k →
      beforeCall (.halfOpen k) now = (.halfOpen k, .rejectTooMany) ∧
      cbExecute (.halfOpen k) now (.ok "v") =
        (.halfOpen k,
          .error ("wechat api circuit breaker: too many requests in half-open state: " ++
            "too many requests"), 0)) := by
  refine ⟨rfl, fun h => ?_, fun h => ?_, fun h => ?_, fun h => ?_⟩
  · have hno : ¬ (now - t ≥ timeout) := not_le.mpr h
    constructor <;> simp [cbExecute, beforeCall, hno]
  · simp [beforeCall, h]
  · simp [beforeCall, h]
  · have hno : ¬ (k < maxRequests) := not_lt.mpr h
    refine ⟨?_, ?_⟩ <;> simp [cbExecute, beforeCall, hno]

/-- Witness for `breaker_trip_and_halfopen`: tripping at time 0, a call
1 second later fails fast with zero inner invocations; a call 60 seconds
later is admitted as a probe; with 3 probes in flight a fourth concurrent
call is rejected as overloaded. -/
theorem breaker_trip_and_halfopen_witness :
    cbFailCalls 0 5 (.closed 0) = .opened 0 ∧
    cbExecute (.opened 0) (1 * Cache.second) (.error "transport") =
      (.opened 0, .error "wechat api circuit breaker is open: circuit breaker is open", 0) ∧
    beforeCall (.opened 0) (60 * Cache.second) = (.halfOpen 1, .proceed) ∧
    beforeCall (.halfOpen 3) (60 * Cache.second) = (.halfOpen 3, .rejectTooMany) := by
  have h1 := breaker_trip_and_halfopen 0 (1 * Cache.second) 3
  have h2 := breaker_trip_and_halfopen 0 (60 * Cache.second) 3
  exact ⟨h1.1, (h1.2.1 (by decide)).1, h2.2.2.1 (by decide),
    (h2.2.2.2.2 (by decide)).1⟩

end Breaker
